import Mathlib

/-!
Verification of the CVUTie configuration and orchestration core.

The development shallowly embeds the two Rust source files:

* src/config.rs — the `Config` structure, its `Default` instance, and the
  JSON-backed `load`/`save` operations (serde_json).  JSON serialization is
  embedded at the level of a JSON syntax tree: `to_writer_pretty` becomes
  `Config.toJson`, `from_reader` becomes `Config.fromJson`, and the file
  system is a map from paths to the JSON documents stored there.
* src/main.rs — the `get_configuration` function, embedded over explicit
  outcomes for its three effects (reading HOME, `Config::load`,
  `Config::save`), and the CLI command surface.

The repository's `main` function body is template/stub code for an unrelated
git-like CLI (it matches none of the declared `Commands` variants and never
reaches the compile/test/pipeline logic), so the orchestration components the
specification describes — RegionResolver, CompilerDriver, TestOrchestrator,
PipelineEngine — do not exist under src.  Where a claim depends on them they
are modelled from the specification text; each such definition's doc comment
says so explicitly.
-/

/-- The fragment of JSON that serde_json uses for `Config` values: null,
strings, arrays and objects (objects as ordered association lists). -/
inductive Json where
  | null : Json
  | str : String → Json
  | arr : List Json → Json
  | obj : List (String × Json) → Json
deriving Repr

/-- An association map from strings to string lists, the embedding of
Rust's HashMap of String to Vec of String (and of Vec of PathBuf, paths being
embedded as strings). -/
abbrev StrListMap := List (String × List String)

/-- Embedding of the Rust struct Config (src/config.rs lines 21-30).
Vec becomes List, HashMap becomes an association list, PathBuf becomes
String. -/
structure Config where
  c_compiler : String
  c_compiler_opts : List String
  source_code_filenames : List String
  test_folder_names : List String
  default_bin_output_name : String
  pipes : Option StrListMap
  regions : Option StrListMap
deriving DecidableEq, Repr

/-- src/config.rs line 7. -/
def SOURCE_CODE_FILENAMES_DEFAULT : String := "main.c"

/-- src/config.rs line 8. -/
def DEFAULT_BINARY_OUTPUT_NAME_DEFAULT : String := "out"

/-- src/config.rs line 9. -/
def TEST_FOLDER_NAMES_DEFAULT : List String := ["CZE", "ENG"]

/-- src/config.rs line 10. -/
def C_COMPILER_DEFAULT : String := "g++"

/-- src/config.rs lines 11-19.  The first entry really is "std=c++20"
without a leading dash, and the list ends with "-c" then "-o". -/
def C_COMPILER_OPTS_DEFAULT : List String :=
  ["std=c++20", "-Wall", "-pedantic", "-Wno-long-long", "-O2", "-c", "-o"]

/-- Embedding of the Default impl for Config (src/config.rs lines 32-50). -/
def Config.default : Config :=
  { c_compiler := C_COMPILER_DEFAULT
    c_compiler_opts := C_COMPILER_OPTS_DEFAULT
    source_code_filenames := [SOURCE_CODE_FILENAMES_DEFAULT]
    test_folder_names := TEST_FOLDER_NAMES_DEFAULT
    default_bin_output_name := DEFAULT_BINARY_OUTPUT_NAME_DEFAULT
    pipes := none
    regions := none }

/-! ## JSON serialization (serde derive on Config)

serde's derived Serialize writes each field in declaration order; Vec of
String becomes a JSON array of strings, HashMap becomes a JSON object,
Option is null / the value itself.  The derived Deserialize requires every
field present with the matching shape. -/

/-- Serialize a list of strings as a JSON array of strings. -/
def strListToJson (xs : List String) : Json :=
  .arr (xs.map .str)

/-- Serialize a string-to-string-list map as a JSON object. -/
def strListMapToJson (m : StrListMap) : Json :=
  .obj (m.map fun kv => (kv.1, strListToJson kv.2))

/-- Serialize an optional map: None becomes null. -/
def optMapToJson : Option StrListMap → Json
  | none => .null
  | some m => strListMapToJson m

/-- Embedding of serde_json serialization of a Config value
(what to_writer_pretty writes, seen as a JSON tree). -/
def Config.toJson (c : Config) : Json :=
  .obj
    [ ("c_compiler", .str c.c_compiler)
    , ("c_compiler_opts", strListToJson c.c_compiler_opts)
    , ("source_code_filenames", strListToJson c.source_code_filenames)
    , ("test_folder_names", strListToJson c.test_folder_names)
    , ("default_bin_output_name", .str c.default_bin_output_name)
    , ("pipes", optMapToJson c.pipes)
    , ("regions", optMapToJson c.regions) ]

/-- Parse a JSON string. -/
def jsonToStr : Json → Option String
  | .str s => some s
  | _ => none

/-- Parse each element of a JSON array as a string; fail if any element
fails (elementwise serde deserialization of a Vec of String). -/
def jsonStrs : List Json → Option (List String)
  | [] => some []
  | j :: js =>
    match jsonToStr j, jsonStrs js with
    | some s, some ss => some (s :: ss)
    | _, _ => none

/-- Parse a JSON array of strings. -/
def jsonToStrList : Json → Option (List String)
  | .arr xs => jsonStrs xs
  | _ => none

/-- Parse each entry of a JSON object as a string list; fail if any entry
fails (entrywise serde deserialization of a HashMap). -/
def jsonMapEntries : List (String × Json) → Option StrListMap
  | [] => some []
  | kv :: kvs =>
    match jsonToStrList kv.2, jsonMapEntries kvs with
    | some v, some rest => some ((kv.1, v) :: rest)
    | _, _ => none

/-- Parse a JSON object into a string-to-string-list map. -/
def jsonToStrListMap : Json → Option StrListMap
  | .obj kvs => jsonMapEntries kvs
  | _ => none

/-- Parse an optional map: null is None, otherwise the map itself. -/
def jsonToOptMap (j : Json) : Option (Option StrListMap) :=
  match j with
  | .null => some none
  | j => (jsonToStrListMap j).map some

/-- Embedding of serde_json deserialization of a Config value
(what from_reader parses from a JSON tree); fails on any missing or
ill-shaped field. -/
def Config.fromJson (j : Json) : Option Config :=
  match j with
  | .obj kvs => do
      let cc ← (kvs.lookup "c_compiler").bind jsonToStr
      let opts ← (kvs.lookup "c_compiler_opts").bind jsonToStrList
      let srcs ← (kvs.lookup "source_code_filenames").bind jsonToStrList
      let tfs ← (kvs.lookup "test_folder_names").bind jsonToStrList
      let dbo ← (kvs.lookup "default_bin_output_name").bind jsonToStr
      let pipes ← (kvs.lookup "pipes").bind jsonToOptMap
      let regions ← (kvs.lookup "regions").bind jsonToOptMap
      pure
        { c_compiler := cc
          c_compiler_opts := opts
          source_code_filenames := srcs
          test_folder_names := tfs
          default_bin_output_name := dbo
          pipes := pipes
          regions := regions }
  | _ => none

/-- The file system as seen by Config load/save: each path optionally holds a
JSON document. -/
def FileSystem := String → Option Json

/-- Embedding of Config::save (src/config.rs lines 59-63) on the success
path: File::create then to_writer_pretty replaces the document at the given
path with the serialization of the config. -/
def Config.save (c : Config) (path : String) (fs : FileSystem) : FileSystem :=
  fun p => if p = path then some c.toJson else fs p

/-- Embedding of Config::load (src/config.rs lines 53-57): open the file at
the path (None if absent) and deserialize its contents (None on parse
failure). -/
def Config.load (path : String) (fs : FileSystem) : Option Config :=
  (fs path).bind Config.fromJson

/-! ## Round-trip lemmas -/

theorem jsonToStr_str (s : String) : jsonToStr (.str s) = some s := rfl

theorem jsonToStrList_strListToJson (xs : List String) :
    jsonToStrList (strListToJson xs) = some xs := by
  induction xs with
  | nil => rfl
  | cons x xs ih =>
    have ih2 : jsonStrs (xs.map Json.str) = some xs := ih
    show jsonStrs ((x :: xs).map Json.str) = some (x :: xs)
    simp [jsonStrs, jsonToStr, ih2]

theorem jsonToStrListMap_strListMapToJson (m : StrListMap) :
    jsonToStrListMap (strListMapToJson m) = some m := by
  induction m with
  | nil => rfl
  | cons kv m ih =>
    have ih2 : jsonMapEntries (m.map fun kv => (kv.1, strListToJson kv.2)) = some m := ih
    show jsonMapEntries ((kv :: m).map fun kv => (kv.1, strListToJson kv.2)) = some (kv :: m)
    simp [jsonMapEntries, jsonToStrList_strListToJson, ih2]

theorem jsonToOptMap_optMapToJson (o : Option StrListMap) :
    jsonToOptMap (optMapToJson o) = some o := by
  cases o with
  | none => rfl
  | some m =>
    simp only [optMapToJson, jsonToOptMap]
    cases m with
    | nil => rfl
    | cons kv m =>
      simp only [strListMapToJson, List.map_cons]
      rw [show (Json.obj ((kv.1, strListToJson kv.2) :: List.map (fun kv => (kv.1, strListToJson kv.2)) m)) = strListMapToJson (kv :: m) from rfl]
      rw [jsonToStrListMap_strListMapToJson]
      rfl

theorem Config.fromJson_toJson (c : Config) :
    Config.fromJson c.toJson = some c := by
  simp [Config.toJson, Config.fromJson, List.lookup, jsonToStr,
    jsonToStrList_strListToJson, jsonToOptMap_optMapToJson]

/-- C1: saving a Config to a path and loading that path returns the same
Config, every field included. -/
theorem config_save_load_roundtrip (c : Config) (path : String) (fs : FileSystem) :
    Config.load path (Config.save c path fs) = some c := by
  unfold Config.load Config.save
  simp only [if_pos rfl, Option.bind_some]
  exact Config.fromJson_toJson c

/-! ## get_configuration (src/main.rs lines 60-94)

The function performs three effects: reading the HOME environment variable,
Config::load at HOME/.cvutie, and config.save(HOME) when the load failed.
Each effect's outcome is an explicit argument; the function body is the
embedding of the match/if-let control flow of the source. -/

/-- The two failure sources inside Config::save (src/config.rs lines 59-63):
File::create yields a std io Error, serde_json to_writer_pretty yields a
serde_json Error.  These are the only error types save can put in its boxed
error, so the downcast chain in get_configuration hits exactly these two
classes. -/
inductive SaveError where
  | ioError
  | serdeError
deriving DecidableEq, Repr

/-- What get_configuration does in the end: return a Config to the caller,
or terminate the whole process with an exit code. -/
inductive GetConfigOutcome where
  | returned : Config → GetConfigOutcome
  | exited : Nat → GetConfigOutcome
deriving DecidableEq, Repr

/-- Embedding of get_configuration (src/main.rs lines 60-94).
home is the value of the HOME variable (none when unset); loadResult is the
outcome of Config::load on the config path (error when the file is missing
or unparseable); saveResult is the outcome of config.save on the fresh
default config, consulted only when the load failed. -/
def get_configuration (home : Option String)
    (loadResult : Except Unit Config)
    (saveResult : Except SaveError Unit) : GetConfigOutcome :=
  match home with
  | none => .returned Config.default
  | some _ =>
    match loadResult with
    | .ok config => .returned config
    | .error _ =>
      match saveResult with
      | .ok _ => .returned Config.default
      | .error .ioError => .returned Config.default
      | .error .serdeError => .exited 1

/-- C2: when the config file cannot be read, get_configuration returns the
default Config and any process termination is attributable only to the
subsequent write failing with a serialization error, never to the read
failure itself; when HOME is unset it also returns the default Config. -/
theorem get_configuration_unreadable_falls_back
    (home : Option String) (loadResult : Except Unit Config)
    (saveResult : Except SaveError Unit) :
    (home = none →
      get_configuration home loadResult saveResult = .returned Config.default) ∧
    (∀ h e, home = some h → loadResult = .error e →
      saveResult ≠ .error .serdeError →
      get_configuration home loadResult saveResult = .returned Config.default) ∧
    (∀ h e n, home = some h → loadResult = .error e →
      get_configuration home loadResult saveResult = .exited n →
      saveResult = .error .serdeError) := by
  refine ⟨?_, ?_, ?_⟩
  · rintro rfl; rfl
  · rintro h e rfl rfl hs
    match saveResult with
    | .ok _ => rfl
    | .error .ioError => rfl
    | .error .serdeError => exact absurd rfl hs
  · rintro h e n rfl rfl hx
    match saveResult with
    | .ok _ => exact absurd hx (by simp [get_configuration])
    | .error .ioError => exact absurd hx (by simp [get_configuration])
    | .error .serdeError => rfl

/-- Closed instances of the C2 theorem: HOME unset, and a failed load with a
successful save, both return the default Config. -/
theorem get_configuration_unreadable_falls_back_witness :
    get_configuration none (.error ()) (.ok ()) = .returned Config.default ∧
    get_configuration (some "/home/u") (.error ()) (.ok ()) = .returned Config.default :=
  ⟨(get_configuration_unreadable_falls_back none (.error ()) (.ok ())).1 rfl,
   (get_configuration_unreadable_falls_back (some "/home/u") (.error ()) (.ok ())).2.1
     "/home/u" () rfl rfl (by simp)⟩

/-- C3: with no readable config file, a serialization error while writing the
fresh default config terminates the process with exit code 1 (nonzero), and
the only other failure class of the write — the io error from File::create —
does not terminate: the function still returns the default Config. -/
theorem get_configuration_serde_fatal (h : String) (e : Unit)
    (saveResult : Except SaveError Unit) :
    (saveResult = .error .serdeError →
      get_configuration (some h) (.error e) saveResult = .exited 1 ∧ (1 : Nat) ≠ 0) ∧
    (saveResult ≠ .error .serdeError →
      ∃ c, get_configuration (some h) (.error e) saveResult = .returned c) := by
  constructor
  · rintro rfl
    exact ⟨rfl, by simp⟩
  · intro hs
    match saveResult with
    | .ok _ => exact ⟨Config.default, rfl⟩
    | .error .ioError => exact ⟨Config.default, rfl⟩
    | .error .serdeError => exact absurd rfl hs

/-- Closed instance of the C3 theorem: a serde error while writing the fresh
default config exits with code 1. -/
theorem get_configuration_serde_fatal_witness :
    get_configuration (some "/home/u") (.error ()) (.error .serdeError) = .exited 1 ∧
      (1 : Nat) ≠ 0 :=
  (get_configuration_serde_fatal "/home/u" () (.error .serdeError)).1 rfl

/-- C4: with no readable config file, a filesystem io error while writing the
fresh default config is non-fatal: get_configuration still returns the
in-memory default Config. -/
theorem get_configuration_io_error_nonfatal (h : String) (e : Unit) :
    get_configuration (some h) (.error e) (.error .ioError) =
      .returned Config.default := rfl

/-- C10: Config::default() is exactly the record of literal defaults from
src/config.rs, field by field. -/
theorem config_default_values :
    Config.default =
      { c_compiler := "g++"
        c_compiler_opts :=
          ["std=c++20", "-Wall", "-pedantic", "-Wno-long-long", "-O2", "-c", "-o"]
        source_code_filenames := ["main.c"]
        test_folder_names := ["CZE", "ENG"]
        default_bin_output_name := "out"
        pipes := none
        regions := none } := rfl

/-! ## RegionResolver (spec section 4.1)

The regions map itself is real code: Config.regions stores each region's
directory list as a Vec (src/config.rs line 29), embedded above as a List,
which preserves order.  The resolve operation is not implemented in the
repository (the main body is stub code), so it is modelled from the spec. -/

/-- Outcome of target resolution. -/
inductive ResolveResult where
  | dirs : List String → ResolveResult
  | unknownTarget : ResolveResult
deriving DecidableEq, Repr

/-- Modelled from the spec: RegionResolver.resolve is missing from the
repository (main.rs never implements the command handlers).  Resolution
order per spec 4.1: a name matching an existing region returns its stored
directory list; otherwise an existing filesystem path (existence given by
the pathExists oracle) resolves to the single-element set of itself;
otherwise UnknownTarget. -/
def RegionResolver.resolve (regions : StrListMap) (id : String)
    (pathExists : String → Bool) : ResolveResult :=
  match regions.lookup id with
  | some ds => .dirs ds
  | none => if pathExists id then .dirs [id] else .unknownTarget

/-- C5: resolving a region defined with directory list ds returns exactly ds,
in the stored (insertion) order. -/
theorem resolve_region_returns_stored_list (regions : StrListMap) (r : String)
    (ds : List String) (pathExists : String → Bool)
    (hr : regions.lookup r = some ds) :
    RegionResolver.resolve regions r pathExists = .dirs ds := by
  unfold RegionResolver.resolve
  rw [hr]

/-- Closed instance of the C5 theorem at a two-region configuration. -/
theorem resolve_region_returns_stored_list_witness :
    RegionResolver.resolve [("hw", ["a", "b", "c"]), ("lab", ["d"])] "hw" (fun _ => false) =
      .dirs ["a", "b", "c"] :=
  resolve_region_returns_stored_list [("hw", ["a", "b", "c"]), ("lab", ["d"])]
    "hw" ["a", "b", "c"] (fun _ => false) rfl

/-! ## Region definition (spec sections 3 and 4.1, Commands::Region)

main.rs declares the Region command with folders, an add flag and a force
flag (src/main.rs lines 45-57), but its handler is missing from the
repository; the mutation semantics are modelled from the spec. -/

/-- Failure of region mutation. -/
inductive RegionError where
  | regionExists
deriving DecidableEq, Repr

/-- Replace the binding of a name in a region map, inserting it if absent. -/
def setRegion (regions : StrListMap) (name : String) (ds : List String) : StrListMap :=
  match regions with
  | [] => [(name, ds)]
  | kv :: rest =>
    if kv.1 = name then (name, ds) :: rest else kv :: setRegion rest name ds

/-- Modelled from the spec: the Region command handler is missing from the
repository.  Per spec, add appends the folders to the region (creating it if
new); the default defines (overwrites) the region, but overwriting an
existing name requires force and otherwise fails with RegionExists. -/
def regionCommand (regions : StrListMap) (name : String) (folders : List String)
    (add force : Bool) : Except RegionError StrListMap :=
  if add then
    match regions.lookup name with
    | some old => .ok (setRegion regions name (old ++ folders))
    | none => .ok (setRegion regions name folders)
  else
    match regions.lookup name with
    | some _ => if force then .ok (setRegion regions name folders) else .error .regionExists
    | none => .ok (setRegion regions name folders)

/-- Run the Region command against a configuration snapshot: on success the
new region map is persisted, on failure the old map is kept. -/
def regionCommandState (regions : StrListMap) (name : String) (folders : List String)
    (add force : Bool) : Option RegionError × StrListMap :=
  match regionCommand regions name folders add force with
  | .ok r => (none, r)
  | .error e => (some e, regions)

/-- C6: defining a region whose name already exists, without force, fails
with RegionExists and the stored directory list of that region is unchanged. -/
theorem define_existing_region_without_force_fails (regions : StrListMap)
    (name : String) (folders ds : List String)
    (hr : regions.lookup name = some ds) :
    (regionCommandState regions name folders false false).1 = some .regionExists ∧
    (regionCommandState regions name folders false false).2.lookup name = some ds := by
  unfold regionCommandState regionCommand
  rw [hr]
  exact ⟨rfl, hr⟩

/-- Closed instance of the C6 theorem: redefining region hw without force is
rejected and its directory list stays intact. -/
theorem define_existing_region_without_force_fails_witness :
    (regionCommandState [("hw", ["a", "b"])] "hw" ["z"] false false).1 =
        some .regionExists ∧
    (regionCommandState [("hw", ["a", "b"])] "hw" ["z"] false false).2.lookup "hw" =
        some ["a", "b"] :=
  define_existing_region_without_force_fails [("hw", ["a", "b"])] "hw" ["z"] ["a", "b"] rfl

/-! ## CompilerDriver (spec section 4.2, Commands::Compile)

main.rs declares the Compile command (src/main.rs lines 22-29) but the
driver is missing from the repository; it is modelled from the spec. -/

/-- Outcome of one compile invocation. -/
inductive CompileResult where
  | success : String → CompileResult
  | compilerError : String → CompileResult
  | artifactMissing : CompileResult
  | noSourceFound : CompileResult
deriving DecidableEq, Repr

/-- What the external compiler child process did: its exit code, its captured
diagnostics, and whether the expected artifact exists on disk afterwards. -/
structure CompilerOutcome where
  exitCode : Int
  diagnostics : String
  artifactExistsAfter : Bool
deriving DecidableEq, Repr

/-- Modelled from the spec: CompilerDriver.compile is missing from the
repository.  Per spec 4.2: pick the first candidate source filename present
in the source directory (NoSourceFound if none); a nonzero compiler exit
yields CompilerError with the diagnostics verbatim; a zero exit yields
Success with the artifact path only if the artifact now exists on disk, and
ArtifactMissing otherwise. -/
def CompilerDriver.compile (settings : Config) (dirFiles : List String)
    (artifactPath : String) (proc : CompilerOutcome) : CompileResult :=
  match settings.source_code_filenames.find? (dirFiles.contains ·) with
  | none => .noSourceFound
  | some _ =>
    if proc.exitCode ≠ 0 then .compilerError proc.diagnostics
    else if proc.artifactExistsAfter then .success artifactPath
    else .artifactMissing

/-- C9: when the compiler exits 0 but the artifact is absent afterwards,
compile returns ArtifactMissing, which no diagnostics can make equal to a
CompilerError; and Success is only ever returned when the artifact exists. -/
theorem compile_zero_exit_without_artifact_is_artifact_missing
    (settings : Config) (dirFiles : List String) (artifactPath : String)
    (proc : CompilerOutcome) (src : String)
    (hsrc : settings.source_code_filenames.find? (dirFiles.contains ·) = some src) :
    (proc.exitCode = 0 → proc.artifactExistsAfter = false →
      CompilerDriver.compile settings dirFiles artifactPath proc = .artifactMissing) ∧
    (∀ d, (CompileResult.artifactMissing : CompileResult) ≠ .compilerError d) ∧
    (∀ p, CompilerDriver.compile settings dirFiles artifactPath proc = .success p →
      proc.artifactExistsAfter = true) := by
  refine ⟨?_, fun d => by simp, ?_⟩
  · intro hz ha
    unfold CompilerDriver.compile
    rw [hsrc]
    simp [hz, ha]
  · intro p hp
    unfold CompilerDriver.compile at hp
    rw [hsrc] at hp
    by_cases hz : proc.exitCode ≠ 0
    · simp [hz] at hp
    · simp [hz] at hp
      by_cases ha : proc.artifactExistsAfter
      · exact ha
      · simp [ha] at hp

/-- Closed instance of the C9 theorem: default settings, a directory holding
main.c, compiler exit 0 and no artifact on disk give ArtifactMissing. -/
theorem compile_zero_exit_without_artifact_is_artifact_missing_witness :
    CompilerDriver.compile Config.default ["main.c"] "out" ⟨0, "", false⟩ =
        .artifactMissing ∧
    (CompileResult.artifactMissing : CompileResult) ≠ .compilerError "" :=
  ⟨(compile_zero_exit_without_artifact_is_artifact_missing Config.default ["main.c"]
      "out" ⟨0, "", false⟩ "main.c" rfl).1 rfl rfl,
   (compile_zero_exit_without_artifact_is_artifact_missing Config.default ["main.c"]
      "out" ⟨0, "", false⟩ "main.c" rfl).2.1 ""⟩

/-! ## TestOrchestrator (spec section 4.5, Commands::TestAll)

main.rs declares the TestAll command (src/main.rs line 43) but the
orchestrator is missing from the repository; it is modelled from the spec.
Compilation outcome and per-fixture execution are oracles carried by each
target, so the orchestration logic itself is total: it can raise no
uncaught error. -/

/-- Reason a fixture could not be judged Pass or Fail. -/
inductive RunErrorReason where
  | compileFailed
  | timedOut
  | launchFailed
deriving DecidableEq, Repr

/-- Verdict of one fixture. -/
inductive Verdict where
  | pass : Verdict
  | fail : String → Verdict
  | runError : RunErrorReason → Verdict
deriving DecidableEq, Repr

/-- One entry of the TestReport: which directory, which fixture, which
verdict. -/
structure TestCaseResult where
  dir : String
  fixtureId : String
  verdict : Verdict
deriving DecidableEq, Repr

/-- One target directory as the orchestrator sees it: its path, whether its
source compiles (oracle for the CompilerDriver call), the fixtures
discovered under it, and the verdict execution would produce for each
fixture (oracle for the BinaryRunner call and output comparison). -/
structure TestTarget where
  dir : String
  compileOk : Bool
  fixtures : List String
  runVerdict : String → Verdict

/-- Modelled from the spec: the per-target step of TestOrchestrator.runAll is
missing from the repository.  Per spec 4.5: compile first; on failure record
every fixture under the directory as RunError CompileFailed without
executing anything; on success run each fixture and record its verdict. -/
def TestOrchestrator.runTarget (t : TestTarget) : List TestCaseResult :=
  if t.compileOk then
    t.fixtures.map fun f => ⟨t.dir, f, t.runVerdict f⟩
  else
    t.fixtures.map fun f => ⟨t.dir, f, .runError .compileFailed⟩

/-- Modelled from the spec: TestOrchestrator.runAll is missing from the
repository.  It processes every target in order and concatenates the
per-target results into one report; one target failing to compile does not
abort the run. -/
def TestOrchestrator.runAll (targets : List TestTarget) : List TestCaseResult :=
  (targets.map TestOrchestrator.runTarget).flatten

/-- C7: when a target fails to compile, every fixture under it appears in the
report as RunError CompileFailed, every report entry produced for it carries
that verdict (so none is Pass or Fail), its execution oracle is never
consulted, and every other target's results still appear in the report. -/
theorem testall_compile_failure_contained (targets : List TestTarget)
    (t : TestTarget) (ht : t ∈ targets) (hc : t.compileOk = false) :
    (∀ f ∈ t.fixtures,
      (⟨t.dir, f, .runError .compileFailed⟩ : TestCaseResult) ∈
        TestOrchestrator.runAll targets) ∧
    (∀ r ∈ TestOrchestrator.runTarget t, r.verdict = .runError .compileFailed) ∧
    (∀ g, TestOrchestrator.runTarget { t with runVerdict := g } =
      TestOrchestrator.runTarget t) ∧
    (∀ u ∈ targets, ∀ r ∈ TestOrchestrator.runTarget u,
      r ∈ TestOrchestrator.runAll targets) := by
  refine ⟨?_, ?_, ?_, ?_⟩
  · intro f hf
    unfold TestOrchestrator.runAll
    rw [List.mem_flatten]
    refine ⟨TestOrchestrator.runTarget t, List.mem_map_of_mem _ ht, ?_⟩
    unfold TestOrchestrator.runTarget
    rw [hc]
    simp only [Bool.false_eq_true, if_false]
    exact List.mem_map_of_mem _ hf
  · intro r hr
    unfold TestOrchestrator.runTarget at hr
    rw [hc] at hr
    simp only [Bool.false_eq_true, if_false, List.mem_map] at hr
    obtain ⟨f, _, rfl⟩ := hr
    rfl
  · intro g
    unfold TestOrchestrator.runTarget
    simp [hc]
  · intro u hu r hr
    unfold TestOrchestrator.runAll
    rw [List.mem_flatten]
    exact ⟨TestOrchestrator.runTarget u, List.mem_map_of_mem _ hu, hr⟩

/-- Closed instance of the C7 theorem: a two-target run whose first target
fails to compile. -/
theorem testall_compile_failure_contained_witness :
    (∀ f ∈ ["f1", "f2"],
      (⟨"d1", f, .runError .compileFailed⟩ : TestCaseResult) ∈
        TestOrchestrator.runAll
          [⟨"d1", false, ["f1", "f2"], fun _ => .pass⟩,
           ⟨"d2", true, ["g1"], fun _ => .pass⟩]) ∧
    (∀ r ∈ TestOrchestrator.runTarget ⟨"d1", false, ["f1", "f2"], fun _ => .pass⟩,
      r.verdict = .runError .compileFailed) ∧
    (∀ g, TestOrchestrator.runTarget
        { (⟨"d1", false, ["f1", "f2"], fun _ => .pass⟩ : TestTarget) with runVerdict := g } =
      TestOrchestrator.runTarget ⟨"d1", false, ["f1", "f2"], fun _ => .pass⟩) ∧
    (∀ u ∈ [(⟨"d1", false, ["f1", "f2"], fun _ => .pass⟩ : TestTarget),
            ⟨"d2", true, ["g1"], fun _ => .pass⟩],
      ∀ r ∈ TestOrchestrator.runTarget u,
        r ∈ TestOrchestrator.runAll
          [⟨"d1", false, ["f1", "f2"], fun _ => .pass⟩,
           ⟨"d2", true, ["g1"], fun _ => .pass⟩]) :=
  testall_compile_failure_contained
    [⟨"d1", false, ["f1", "f2"], fun _ => .pass⟩, ⟨"d2", true, ["g1"], fun _ => .pass⟩]
    ⟨"d1", false, ["f1", "f2"], fun _ => .pass⟩ (List.mem_cons_self _ _) rfl

/-! ## PipelineEngine (spec section 4.6, Commands::Pipe)

main.rs declares the Pipe command (src/main.rs lines 34-40) but the engine
is missing from the repository; it is modelled from the spec. -/

/-- One pipeline stage: a name and what running it on its stdin produces
(output bytes, or a failure cause). -/
structure Stage where
  name : String
  run : String → Except String String

/-- Run the stages in declared order starting at stage index i, chaining
each stage's output into the next stage's input; returns the list of stage
indices actually invoked, and either the final output or the index and
cause of the first failing stage.  A failing stage ends the walk at once. -/
def runStages : List Stage → Nat → String → List Nat × Except (Nat × String) String
  | [], _, input => ([], .ok input)
  | s :: rest, i, input =>
    match s.run input with
    | .error e => ([i], .error (i, e))
    | .ok out =>
      (i :: (runStages rest (i + 1) out).1, (runStages rest (i + 1) out).2)

/-- Result of one pipeline run: which stages were invoked, what content was
committed to the requested final output (none when no output was requested
or the pipeline failed), and which stage failed with what cause. -/
structure PipelineResult where
  invoked : List Nat
  written : Option String
  failedStage : Option (Nat × String)
deriving DecidableEq, Repr

/-- Modelled from the spec: PipelineEngine.run is missing from the
repository.  Per spec 4.6: stages run strictly in order with stdout chained
to stdin; on any stage failure the pipeline stops at once and nothing is
committed to the final output; only on full success is the last stage's
output committed to the requested final output. -/
def PipelineEngine.run (stages : List Stage) (finalOutput : Option String) :
    PipelineResult :=
  match (runStages stages 0 "").2 with
  | .ok out =>
    { invoked := (runStages stages 0 "").1
      written := finalOutput.map fun _ => out
      failedStage := none }
  | .error ie =>
    { invoked := (runStages stages 0 "").1
      written := none
      failedStage := some ie }

theorem runStages_error_bounds (stages : List Stage) :
    ∀ (i0 : Nat) (input : String) (i : Nat) (e : String),
      (runStages stages i0 input).2 = .error (i, e) →
      i0 ≤ i ∧ ∀ j ∈ (runStages stages i0 input).1, j ≤ i := by
  induction stages with
  | nil => intro i0 input i e h; exact absurd h (by simp [runStages])
  | cons s rest ih =>
    intro i0 input i e h
    cases hsr : s.run input with
    | error e0 =>
      simp only [runStages, hsr] at h ⊢
      obtain ⟨rfl, rfl⟩ : i0 = i ∧ e0 = e := by
        simpa using h
      exact ⟨le_refl _, by simp⟩
    | ok out =>
      simp only [runStages, hsr] at h ⊢
      obtain ⟨h1, h2⟩ := ih (i0 + 1) out i e h
      refine ⟨Nat.le_of_succ_le h1, ?_⟩
      intro j hj
      rcases List.mem_cons.mp hj with rfl | hj
      · exact Nat.le_of_succ_le h1
      · exact h2 j hj

/-- C8: if stage i fails, no stage with a larger index is ever invoked and
nothing is committed to the requested final output; content is committed
only on runs in which no stage failed. -/
theorem pipeline_fail_fast (stages : List Stage) (finalOutput : Option String)
    (i : Nat) (e : String) :
    ((PipelineEngine.run stages finalOutput).failedStage = some (i, e) →
      (∀ j ∈ (PipelineEngine.run stages finalOutput).invoked, j ≤ i) ∧
      (PipelineEngine.run stages finalOutput).written = none) ∧
    ((PipelineEngine.run stages finalOutput).written ≠ none →
      (PipelineEngine.run stages finalOutput).failedStage = none) := by
  cases hres : (runStages stages 0 "").2 with
  | ok out =>
    constructor
    · intro hf
      exact absurd hf (by simp [PipelineEngine.run, hres])
    · intro _
      simp [PipelineEngine.run, hres]
  | error ie =>
    constructor
    · intro hf
      have hie : ie = (i, e) := by
        simpa [PipelineEngine.run, hres] using hf
      subst hie
      refine ⟨?_, by simp [PipelineEngine.run, hres]⟩
      intro j hj
      have hj2 : j ∈ (runStages stages 0 "").1 := by
        simpa [PipelineEngine.run, hres] using hj
      exact (runStages_error_bounds stages 0 "" i e hres).2 j hj2
    · intro hw
      exact absurd (by simp [PipelineEngine.run, hres]) hw

/-- Closed instance of the C8 theorem: a two-stage pipeline whose first
stage fails invokes only stage 0 and writes nothing to the requested
output. -/
theorem pipeline_fail_fast_witness :
    (∀ j ∈ (PipelineEngine.run
        [⟨"a", fun _ => .error "boom"⟩, ⟨"b", fun x => .ok x⟩]
        (some "out.txt")).invoked, j ≤ 0) ∧
    (PipelineEngine.run
        [⟨"a", fun _ => .error "boom"⟩, ⟨"b", fun x => .ok x⟩]
        (some "out.txt")).written = none :=
  (pipeline_fail_fast [⟨"a", fun _ => .error "boom"⟩, ⟨"b", fun x => .ok x⟩]
      (some "out.txt") 0 "boom").1 rfl
